import Mathlib

/-!
Verification of the outgoing-transaction reconciliation pipeline of the
safe-react repository, a shallow embedding of
`src/routes/safe/store/actions/transactions/fetchTransactions/loadOutgoingTransactions.js`.

JavaScript strings are modelled as Lean `String` (lists of characters),
JavaScript numbers arising from the transaction service (gas fields, values,
counts) as `Nat`, nullable values as `Option`, and the asynchronous
network-dependent collaborators (token metadata resolution, batched on-chain
calls, the remote history fetch) as explicit environment records so that the
control flow of the source file is reproduced exactly.  A rejected promise is
modelled as `none` / a dedicated outcome constructor.
-/

namespace SafeReact

/-! ## String and digit utilities (JavaScript semantics) -/

/-- The character for a single decimal digit, as in JavaScript number
rendering. -/
def digitChar (n : Nat) : Char := Char.ofNat (48 + n)

/-- Fuel-driven most-significant-first decimal digit list of a natural number;
`natDigitsCore fuel n` is the digit list of `n` provided `n ≤ fuel`.
Structural recursion on the fuel keeps the definition kernel-reducible. -/
def natDigitsCore : Nat → Nat → List Char
  | _, 0 => []
  | 0, _ + 1 => []
  | fuel + 1, n + 1 => natDigitsCore fuel ((n + 1) / 10) ++ [digitChar ((n + 1) % 10)]

/-- Most-significant-first decimal digits of `n` (empty for `0`). -/
def natDigits (n : Nat) : List Char := natDigitsCore n n

/-- Character list of the JavaScript decimal rendering of a natural number
(`(0).toString()` is `"0"`). -/
def natToStringChars (n : Nat) : List Char := if n = 0 then ['0'] else natDigits n

/-- JavaScript `Number.prototype.toString` for a natural number. -/
def natToString (n : Nat) : String := String.mk (natToStringChars n)

/-- JavaScript `String.prototype.padStart(target, "0")`. -/
def padStartZeros (l : List Char) (target : Nat) : List Char :=
  List.replicate (target - l.length) '0' ++ l

/-- Whether the character list `p` is an initial segment of `l`. -/
def leadsWith : List Char → List Char → Bool
  | [], _ => true
  | _ :: _, [] => false
  | p :: ps, c :: cs => p == c && leadsWith ps cs

/-- Whether the character list `pat` occurs contiguously inside `l`. -/
def occursIn (pat : List Char) : List Char → Bool
  | [] => leadsWith pat []
  | c :: cs => leadsWith pat (c :: cs) || occursIn pat cs

/-- JavaScript `String.prototype.includes`. -/
def strContains (s pat : String) : Bool := occursIn pat.data s.data

/-- JavaScript `String.prototype.slice(n)` (suffix from index `n`). -/
def jsSliceFrom (s : String) (n : Nat) : String := String.mk (s.data.drop n)

/-- JavaScript `String.prototype.slice(0, n)` (first `n` characters). -/
def jsTake (s : String) (n : Nat) : String := String.mk (s.data.take n)

/-- JavaScript truthiness of a nullable string: `null`, `undefined` and the
empty string are falsy. -/
def dataTruthy : Option String → Bool
  | none => false
  | some s => !(s == "")

/-! ## Constants of the repository -/

/-- The zero address sentinel for the native currency
(`~/logic/wallets/ethAddresses`). -/
def ZERO_ADDRESS : String := "0x0000000000000000000000000000000000000000"

/-- `EMPTY_DATA` from `~/logic/wallets/ethTransactions`. -/
def EMPTY_DATA : String := "0x"

/-- Modelled from the spec: the method-selector of the ERC20 `transfer` call
used by the call-data classifier (`tokenHelpers.isTokenTransfer`, a file of
this repository outside the provided sources). -/
def SENT_TOKEN_FUNCTION_SIGNATURE : String := "0xa9059cbb"

/-- Modelled from the spec: the method-selector of the multi-send encoding
recognised by `tokenHelpers.isMultisendTransaction` (outside the provided
sources). -/
def MULTI_SEND_FUNCTION_SIGNATURE : String := "0x8d80ff0a"

/-- Modelled from the spec: the bytecode hash fragment associated with the
non-standard (ERC721-style) `safeTransferFrom` without data
(`SAFE_TRANSFER_FROM_WITHOUT_DATA_HASH`, outside the provided sources). -/
def SAFE_TRANSFER_FROM_WITHOUT_DATA_HASH : String := "42842e0e"

/-- Modelled from the spec: a call-data fragment marking an upgrade-pattern
call inside a decoded multi-send batch (`tokenHelpers.isUpgradeTransaction`,
outside the provided sources). -/
def UPGRADE_CALL_MARKER : String := "7de7edef"

/-! ## Spec-modelled pure helpers (repository files outside the provided
sources; each is faithful to the spec section describing it) -/

/-- ASCII lower-casing of one character (JavaScript `toLowerCase` on the
hexadecimal address alphabet). -/
def charLower (c : Char) : Char :=
  if 65 ≤ c.toNat ∧ c.toNat ≤ 90 then Char.ofNat (c.toNat + 32) else c

/-- JavaScript `String.prototype.toLowerCase` on ASCII strings. -/
def jsToLower (s : String) : String := String.mk (s.data.map charLower)

/-- Modelled from the spec: `sameAddress` of `~/logic/wallets/ethAddresses` —
case-insensitive address equality, false when either address is absent or
empty (JavaScript truthiness guard). -/
def sameAddress (a b : String) : Bool :=
  !(a == "") && !(b == "") && (jsToLower a == jsToLower b)

/-- Modelled from the spec: `tokenHelpers.isTokenTransfer` — the call data
matches the recognised token-transfer selector and the transferred native
value is zero. -/
def isTokenTransfer (data : Option String) (value : Nat) : Bool :=
  match data with
  | none => false
  | some s => (jsTake s 10 == SENT_TOKEN_FUNCTION_SIGNATURE) && (value == 0)

/-- Modelled from the spec: `tokenHelpers.isMultisendTransaction` — the call
data matches the recognised multi-send encoding with zero native value. -/
def isMultisendTransaction (data : Option String) (value : Nat) : Bool :=
  match data with
  | none => false
  | some s => (jsTake s 10 == MULTI_SEND_FUNCTION_SIGNATURE) && (value == 0)

/-- Modelled from the spec: `tokenHelpers.isUpgradeTransaction` — the decoded
multi-send batch contains an upgrade-pattern call, detected on the raw call
data. -/
def isUpgradeTransaction (data : Option String) : Bool :=
  match data with
  | none => false
  | some s => strContains s UPGRADE_CALL_MARKER

/-- JavaScript `code && code.includes(hash)` on a nullable bytecode string. -/
def codeIncludes (code : Option String) (hash : String) : Bool :=
  match code with
  | none => false
  | some c => strContains c hash

/-! ## Data model -/

/-- Token metadata as returned by the token registry or resolver. -/
structure TokenInfo where
  symbol : String
  decimals : Nat
deriving DecidableEq, Inhabited

/-- A confirmation as delivered by the transaction service. -/
structure ConfirmationServiceModel where
  owner : String
  submissionDate : Option String
  signature : String
  transactionHash : String
deriving DecidableEq, Inhabited

/-- A raw transaction as delivered by the transaction service
(`TxServiceModel` in the source). -/
structure TxServiceModel where
  «to» : String
  value : Nat
  data : Option String
  operation : Nat
  nonce : Option Nat
  blockNumber : Option Nat
  safeTxGas : Nat
  baseGas : Nat
  gasPrice : Nat
  gasToken : String
  refundReceiver : String
  safeTxHash : String
  submissionDate : Option String
  executor : String
  executionDate : Option String
  confirmations : List ConfirmationServiceModel
  isExecuted : Bool
  isSuccessful : Bool
  transactionHash : Option String
  creationTx : Bool
  origin : Option String
deriving DecidableEq, Inhabited

/-- A normalized confirmation (`makeConfirmation`). -/
structure Confirmation where
  owner : String
  hash : String
  signature : String
deriving DecidableEq, Inhabited

/-- Refund parameters attached to a transaction whose execution refunds gas. -/
structure RefundParams where
  fee : String
  symbol : String
deriving DecidableEq, Inhabited

/-- The decoded parameters attached to a normalized transaction: either the
token-transfer decode (`decodeParameters(['address', 'uint256'], ...)` applied
to the call data without its selector) or the Safe-method decode
(`decodeParamsFromSafeMethod`, a repository file outside the provided sources,
modelled as a tagged copy of the raw call data). -/
inductive DecodedParams where
  | transferDecode (raw : String)
  | safeMethodDecode (raw : String)
deriving DecidableEq, Inhabited

/-- The canonical normalized transaction record (`makeTransaction`). -/
structure Transaction where
  symbol : String
  nonce : Option Nat
  blockNumber : Option Nat
  value : String
  confirmations : List Confirmation
  decimals : Nat
  recipient : String
  data : String
  operation : Nat
  safeTxGas : Nat
  baseGas : Nat
  gasPrice : Nat
  gasToken : String
  refundReceiver : String
  refundParams : Option RefundParams
  isExecuted : Bool
  isSuccessful : Bool
  submissionDate : Option String
  executor : String
  executionDate : Option String
  executionTxHash : Option String
  safeTxHash : String
  isTokenTransfer : Bool
  multiSendTx : Bool
  upgradeTx : Bool
  decodedParams : Option DecodedParams
  modifySettingsTx : Bool
  customTx : Bool
  cancellationTx : Bool
  creationTx : Bool
  origin : Option String
deriving DecidableEq, Inhabited

/-- The external collaborators of the normalizer: the primary token metadata
lookup (`getTokenInfos`, rejection modelled as `none`) and the secondary
lookup issuing two independent batched calls (`generateBatchRequests` with
the alternative token ABI asking for `symbol` and `decimals`; each call's
rejection is modelled as `none`). -/
structure TokenEnv where
  getTokenInfos : String → Option TokenInfo
  altSymbol : String → Option String
  altDecimals : String → Option Nat

/-- The in-memory token registry (`state[TOKEN_REDUCER_ID]`), an
address-keyed map. -/
def lookupToken (knownTokens : List (String × TokenInfo)) (address : String) :
    Option TokenInfo :=
  (knownTokens.find? (fun p => p.1 == address)).map Prod.snd

/-! ## The classifier flags (lines 77-85 of the source) -/

/-- The provisional classification flags computed before token resolution. -/
structure Flags where
  modifySettingsTx : Bool
  cancellationTx : Bool
  isERC721Token : Bool
  isSendTokenTx : Bool
  isMultiSendTx : Bool
  isUpgradeTx : Bool
  customTx : Bool
deriving DecidableEq, Inhabited

/-- Lines 77-85 of `loadOutgoingTransactions.js`, verbatim. -/
def initialFlags (safeAddress : String) (tx : TxServiceModel)
    (knownTokens : List (String × TokenInfo)) (code : Option String) : Flags :=
  let modifySettingsTx :=
    sameAddress tx.«to» safeAddress && (tx.value == 0) && dataTruthy tx.data
  let cancellationTx :=
    sameAddress tx.«to» safeAddress && (tx.value == 0) && !dataTruthy tx.data
  let isERC721Token :=
    codeIncludes code SAFE_TRANSFER_FROM_WITHOUT_DATA_HASH ||
      (isTokenTransfer tx.data tx.value && !(lookupToken knownTokens tx.«to»).isSome)
  let isSendTokenTx := !isERC721Token && isTokenTransfer tx.data tx.value
  let isMultiSendTx := isMultisendTransaction tx.data tx.value
  let isUpgradeTx := isMultiSendTx && isUpgradeTransaction tx.data
  let customTx :=
    !sameAddress tx.«to» safeAddress && dataTruthy tx.data && !isSendTokenTx &&
      !isUpgradeTx && !isERC721Token
  { modifySettingsTx, cancellationTx, isERC721Token, isSendTokenTx,
    isMultiSendTx, isUpgradeTx, customTx }

/-! ## Refund parameters (lines 87-105 of the source) -/

/-- The fee formatting of lines 96-100: `toString`, `padStart` to the refund
decimals, then split into whole and fractional part around a decimal point
(an empty whole part becomes `"0"`). -/
def formatFee (fee decimals : Nat) : String :=
  let feeString := padStartZeros (natToStringChars fee) decimals
  let w := feeString.take (feeString.length - decimals)
  let whole := if w = [] then ['0'] else w
  let fraction := feeString.drop (feeString.length - decimals)
  String.mk (whole ++ '.' :: fraction)

/-- Lines 89-95: the refund symbol and decimals — the defaults `"ETH"` and
`18` for the native sentinel address, otherwise the primary token lookup
(whose rejection, `none`, rejects the whole normalization). -/
def refundSymDec (env : TokenEnv) (tx : TxServiceModel) : Option (String × Nat) :=
  if tx.gasToken ≠ ZERO_ADDRESS then
    match env.getTokenInfos tx.gasToken with
    | some info => some (info.symbol, info.decimals)
    | none => none
  else some ("ETH", 18)

/-- Lines 87-105: `refundParams` is built only when `gasPrice > 0`, carrying
the formatted fee `gasPrice * (baseGas + safeTxGas)` in the refund token
decimals. -/
def computeRefundParams (env : TokenEnv) (tx : TxServiceModel) :
    Option (Option RefundParams) :=
  if 0 < tx.gasPrice then
    match refundSymDec env tx with
    | none => none
    | some (sym, dec) =>
      some (some { fee := formatFee (tx.gasPrice * (tx.baseGas + tx.safeTxGas)) dec,
                   symbol := sym })
  else some none

/-! ## Token resolution (lines 107-135 of the source) -/

/-- The outcome of the token resolution step: final send-token and custom
flags together with the resolved symbol and decimals. -/
structure Resolved where
  isSendTokenTx : Bool
  customTx : Bool
  symbol : String
  decimals : Nat
deriving DecidableEq, Inhabited

/-- Lines 107-135: when the provisional classification is a token transfer the
primary lookup is attempted, then the secondary lookup (both of its calls must
succeed); when both fail the transaction is demoted to a custom transaction.
Otherwise the defaults `"ETH"` and `18` are kept. -/
def resolveSendToken (env : TokenEnv) (tx : TxServiceModel) (f : Flags) : Resolved :=
  if f.isSendTokenTx then
    match env.getTokenInfos tx.«to» with
    | some token => { isSendTokenTx := true, customTx := f.customTx,
                      symbol := token.symbol, decimals := token.decimals }
    | none =>
      match env.altSymbol tx.«to», env.altDecimals tx.«to» with
      | some s, some d => { isSendTokenTx := true, customTx := f.customTx,
                            symbol := s, decimals := d }
      | _, _ => { isSendTokenTx := false, customTx := true,
                  symbol := "ETH", decimals := 18 }
  else { isSendTokenTx := false, customTx := f.customTx, symbol := "ETH", decimals := 18 }

/-- Lines 110-146: the decoded parameters.  The first branch is entered on the
provisional (pre-resolution) send-token flag and always produces the
token-transfer decode of `tx.data.slice(10)`; the later branches use the final
`customTx` value. -/
def computeDecodedParams (tx : TxServiceModel) (f : Flags) (r : Resolved) :
    Option DecodedParams :=
  if f.isSendTokenTx then
    some (.transferDecode (jsSliceFrom (tx.data.getD "") 10))
  else if f.modifySettingsTx && dataTruthy tx.data then
    some (.safeMethodDecode (tx.data.getD ""))
  else if r.customTx && dataTruthy tx.data then
    some (.safeMethodDecode (tx.data.getD ""))
  else none

/-! ## The normalizer (`buildTransactionFrom`, lines 62-181) -/

/-- The final `makeTransaction` call of lines 148-180, assembling the
canonical record from the flags, the token resolution and the refund
parameters. -/
def assembleTransaction (safeAddress : String) (tx : TxServiceModel)
    (knownTokens : List (String × TokenInfo)) (code : Option String)
    (env : TokenEnv) (refundParams : Option RefundParams) : Transaction :=
  let confirmations := tx.confirmations.map
    (fun c => { owner := c.owner, hash := c.transactionHash,
                signature := c.signature : Confirmation })
  let f := initialFlags safeAddress tx knownTokens code
  let r := resolveSendToken env tx f
  {
      symbol := r.symbol
      nonce := tx.nonce
      blockNumber := tx.blockNumber
      value := natToString tx.value
      confirmations := confirmations
      decimals := r.decimals
      recipient := tx.«to»
      data := if dataTruthy tx.data then tx.data.getD "" else EMPTY_DATA
      operation := tx.operation
      safeTxGas := tx.safeTxGas
      baseGas := tx.baseGas
      gasPrice := tx.gasPrice
      gasToken := if tx.gasToken == "" then ZERO_ADDRESS else tx.gasToken
      refundReceiver := if tx.refundReceiver == "" then ZERO_ADDRESS else tx.refundReceiver
      refundParams := refundParams
      isExecuted := tx.isExecuted
      isSuccessful := tx.isSuccessful
      submissionDate := tx.submissionDate
      executor := tx.executor
      executionDate := tx.executionDate
      executionTxHash := tx.transactionHash
      safeTxHash := tx.safeTxHash
      isTokenTransfer := r.isSendTokenTx
      multiSendTx := f.isMultiSendTx
      upgradeTx := f.isUpgradeTx
      decodedParams := computeDecodedParams tx f r
      modifySettingsTx := f.modifySettingsTx
      customTx := r.customTx
      cancellationTx := f.cancellationTx
      creationTx := tx.creationTx
      origin := tx.origin }

/-- `buildTransactionFrom`: normalizes one raw service transaction.  `none`
models a rejected promise (the only rejection in this model is the gas-token
metadata lookup of the refund computation). -/
def buildTransactionFrom (safeAddress : String) (tx : TxServiceModel)
    (knownTokens : List (String × TokenInfo)) (code : Option String)
    (env : TokenEnv) : Option Transaction :=
  match computeRefundParams env tx with
  | none => none
  | some refundParams =>
    some (assembleTransaction safeAddress tx knownTokens code env refundParams)

/-! ## The history fetch and reconciliation loop (lines 183-252) -/

/-- Modelled from the spec: the synthetic genesis record representing wallet
creation (`addMockSafeCreationTx`, a repository file outside the provided
sources): a creation-flagged record with empty destination, zero value, no
call data, no gas accounting and no confirmations. -/
def mockCreationTx (_safeAddress : String) : TxServiceModel :=
  { «to» := ""
    value := 0
    data := none
    operation := 0
    nonce := none
    blockNumber := none
    safeTxGas := 0
    baseGas := 0
    gasPrice := 0
    gasToken := ZERO_ADDRESS
    refundReceiver := ZERO_ADDRESS
    safeTxHash := ""
    submissionDate := none
    executor := ""
    executionDate := none
    confirmations := []
    isExecuted := true
    isSuccessful := true
    transactionHash := none
    creationTx := true
    origin := none }

/-- `addMockSafeCreationTx(safeAddress)`: the seed list holding only the
synthetic genesis record. -/
def addMockSafeCreationTx (safeAddress : String) : List TxServiceModel :=
  [mockCreationTx safeAddress]

/-- The observable outcome of the conditional GET against the remote history
endpoint: a success carries the response ETag, the reported count and the
result records; `notModified` is an explicit 304-equivalent failure; any other
failure is a network error. -/
inductive FetchOutcome where
  | success (etag : String) (count : Nat) (results : List TxServiceModel)
  | notModified
  | networkError
deriving DecidableEq

/-- The grouped output (`SafeTransactionsType`): each side is the singleton
map produced by `Map().set(safeAddress, groupedTxs.get(key))`, where an
absent group is `undefined` (`none`). -/
structure SafeTransactionsType where
  outgoing : List (String × Option (List Transaction))
  cancel : List (String × Option (List Transaction))
deriving DecidableEq, Inhabited

/-- What the `loadOutgoingTransactions` promise does: resolve with
`undefined`, resolve with a grouped result, or reject (an error escaping the
function). -/
inductive LoadOutcome where
  | undef
  | result (r : SafeTransactionsType)
  | thrown
deriving DecidableEq, Inhabited

/-- Whether the promise resolved with `undefined`. -/
def LoadOutcome.isUndef : LoadOutcome → Bool
  | .undef => true
  | _ => false

/-- The instrumented result of one invocation: the outcome, the ETag cache
after the invocation, whether a network error was logged, whether the batched
`getCode` lookup ran, and how many per-transaction normalizations were
started. -/
structure LoadResult where
  outcome : LoadOutcome
  newEtag : Option String
  loggedError : Bool
  batchLookupPerformed : Bool
  normalizationsAttempted : Nat
deriving DecidableEq, Inhabited

/-- `List(txsRecord).groupBy(tx => tx.get('cancellationTx') ? 'cancel' :
'outgoing').get(key)`: the order-preserving group of records whose
cancellation flag matches, `undefined` (`none`) when the group is empty. -/
def groupGet (recs : List Transaction) (cancel : Bool) : Option (List Transaction) :=
  let l := recs.filter (fun t => t.cancellationTx == cancel)
  if l = [] then none else some l

/-- `Promise.all`: the whole batch rejects when any element rejects. -/
def sequenceOptions : List (Option α) → Option (List α)
  | [] => some []
  | none :: _ => none
  | some a :: rest => (sequenceOptions rest).map (a :: ·)

/-- Lines 238-251: the batched `getCode` lookup (`batchTxTokenRequest`,
supplying each transaction with the bytecode at its destination), the
`Promise.all` of the per-transaction normalizations, and the grouping of the
normalized records. -/
def finishLoad (safeAddress : String) (txs : List TxServiceModel)
    (knownTokens : List (String × TokenInfo)) (codeOf : String → Option String)
    (env : TokenEnv) (newEtag : Option String) (logged : Bool) : LoadResult :=
  match sequenceOptions
      (txs.map (fun t => buildTransactionFrom safeAddress t knownTokens (codeOf t.«to») env)) with
  | none =>
    { outcome := .thrown, newEtag := newEtag, loggedError := logged,
      batchLookupPerformed := true, normalizationsAttempted := txs.length }
  | some recs =>
    { outcome := .result
        { outgoing := [(safeAddress, groupGet recs false)]
          cancel := [(safeAddress, groupGet recs true)] }
      newEtag := newEtag
      loggedError := logged
      batchLookupPerformed := true
      normalizationsAttempted := txs.length }

/-- `loadOutgoingTransactions` (lines 203-252): seed the list with the
synthetic genesis record; on a successful response with a positive count,
short-circuit to `undefined` when the response ETag equals the stored one,
otherwise append the results and store the new ETag; on a 304-equivalent
failure short-circuit to `undefined`; on any other failure log and degrade to
the seed list; finally batch the bytecode lookups, normalize every
transaction and group the records. -/
def loadOutgoingTransactions (safeAddress : String) (prevEtag : Option String)
    (outcome : FetchOutcome) (knownTokens : List (String × TokenInfo))
    (codeOf : String → Option String) (env : TokenEnv) : LoadResult :=
  let seed := addMockSafeCreationTx safeAddress
  match outcome with
  | .success etag count results =>
    if 0 < count then
      if prevEtag = some etag then
        { outcome := .undef, newEtag := prevEtag, loggedError := false,
          batchLookupPerformed := false, normalizationsAttempted := 0 }
      else
        finishLoad safeAddress (seed ++ results) knownTokens codeOf env (some etag) false
    else
      finishLoad safeAddress seed knownTokens codeOf env prevEtag false
  | .notModified =>
    { outcome := .undef, newEtag := prevEtag, loggedError := false,
      batchLookupPerformed := false, normalizationsAttempted := 0 }
  | .networkError =>
    finishLoad safeAddress seed knownTokens codeOf env prevEtag true

/-! ## Decimal rendering: correctness of the fee formatting -/

/-- The clean fixed-point rendering the specification describes: the decimal
numeral of `fee / 10 ^ decimals`, a point, then the `decimals`-digit
zero-padded numeral of `fee % 10 ^ decimals`. -/
def decimalRender (fee decimals : Nat) : String :=
  String.mk (natToStringChars (fee / 10 ^ decimals) ++
    '.' :: padStartZeros (natDigits (fee % 10 ^ decimals)) decimals)

theorem natDigitsCore_fuel_irrelevant :
    ∀ n f1 f2, n ≤ f1 → n ≤ f2 → natDigitsCore f1 n = natDigitsCore f2 n := by
  intro n
  induction n using Nat.strong_induction_on with
  | _ n ih =>
    intro f1 f2 h1 h2
    match n, f1, f2 with
    | 0, f1, f2 => cases f1 <;> cases f2 <;> rfl
    | m + 1, a + 1, b + 1 =>
      show natDigitsCore a ((m + 1) / 10) ++ _ = natDigitsCore b ((m + 1) / 10) ++ _
      have hd : (m + 1) / 10 < m + 1 := Nat.div_lt_self (Nat.succ_pos m) (by omega)
      have ha : (m + 1) / 10 ≤ a := by omega
      have hb : (m + 1) / 10 ≤ b := by omega
      rw [ih ((m + 1) / 10) hd a b ha hb]

theorem natDigits_zero : natDigits 0 = [] := rfl

theorem natDigits_eq (n : Nat) (h : n ≠ 0) :
    natDigits n = natDigits (n / 10) ++ [digitChar (n % 10)] := by
  match n, h with
  | m + 1, _ =>
    show natDigitsCore (m + 1) (m + 1) = _
    have hd : (m + 1) / 10 < m + 1 := Nat.div_lt_self (Nat.succ_pos m) (by omega)
    show natDigitsCore m ((m + 1) / 10) ++ _ = _
    rw [natDigitsCore_fuel_irrelevant ((m + 1) / 10) m ((m + 1) / 10) (by omega) (le_refl _)]
    rfl

theorem natDigits_length_le (d : Nat) :
    ∀ n, n < 10 ^ d → (natDigits n).length ≤ d := by
  induction d with
  | zero =>
    intro n hn
    interval_cases n
    simp [natDigits_zero]
  | succ e ih =>
    intro n hn
    by_cases h0 : n = 0
    · simp [h0, natDigits_zero]
    · rw [natDigits_eq n h0]
      have hdiv : n / 10 < 10 ^ e := by
        have : n < 10 ^ e * 10 := by
          calc n < 10 ^ (e + 1) := hn
          _ = 10 ^ e * 10 := by rw [pow_succ]
        exact Nat.div_lt_of_lt_mul (by omega)
      have := ih (n / 10) hdiv
      simp only [List.length_append, List.length_cons, List.length_nil]
      omega

theorem natDigits_ne_nil (n : Nat) (h : n ≠ 0) : natDigits n ≠ [] := by
  rw [natDigits_eq n h]
  simp

theorem padStartZeros_length (l : List Char) (d : Nat) (h : l.length ≤ d) :
    (padStartZeros l d).length = d := by
  simp [padStartZeros]
  omega

theorem padStartZeros_append_digit (xs : List Char) (c : Char) (d : Nat) :
    padStartZeros (xs ++ [c]) (d + 1) = padStartZeros xs d ++ [c] := by
  simp only [padStartZeros, List.length_append, List.length_cons, List.length_nil]
  rw [Nat.succ_sub_succ_eq_sub d (xs.length + 0), List.append_assoc]
  simp

theorem padStartZeros_split :
    ∀ n d, padStartZeros (natDigits n) d =
      natDigits (n / 10 ^ d) ++ padStartZeros (natDigits (n % 10 ^ d)) d := by
  intro n
  induction n using Nat.strong_induction_on with
  | _ n ih =>
    intro d
    by_cases h0 : n = 0
    · subst h0
      simp [natDigits_zero, padStartZeros, Nat.zero_div, Nat.zero_mod]
    · match d with
      | 0 =>
        simp [padStartZeros, pow_zero, Nat.div_one, Nat.mod_one, natDigits_zero]
      | e + 1 =>
        rw [natDigits_eq n h0, padStartZeros_append_digit]
        rw [ih (n / 10) (Nat.div_lt_self (Nat.pos_of_ne_zero h0) (by omega)) e]
        rw [List.append_assoc]
        have hdiv : n / 10 / 10 ^ e = n / 10 ^ (e + 1) := by
          rw [Nat.div_div_eq_div_mul, pow_succ, Nat.mul_comm (10 ^ e) 10]
        rw [hdiv]
        congr 1
        -- it remains to merge the last digit into the padded fractional part
        have hmod : n % 10 ^ (e + 1) = 10 * (n / 10 % 10 ^ e) + n % 10 := by
          have : n % (10 * 10 ^ e) = n % 10 + 10 * (n / 10 % 10 ^ e) := Nat.mod_mul
          rw [pow_succ, Nat.mul_comm (10 ^ e) 10, this]
          omega
        rw [hmod]
        set m := n / 10 % 10 ^ e with hm
        set r := n % 10 with hr
        have hrlt : r < 10 := Nat.mod_lt _ (by omega)
        by_cases hz : 10 * m + r = 0
        · have hm0 : m = 0 := by omega
          have hr0 : r = 0 := by omega
          rw [hz, hm0, hr0, natDigits_zero]
          show padStartZeros [] e ++ [digitChar 0] = padStartZeros [] (e + 1)
          simp [padStartZeros, List.replicate_succ' e '0']
          rfl
        · rw [natDigits_eq (10 * m + r) hz]
          have h1 : (10 * m + r) / 10 = m := by
            rw [Nat.mul_add_div (by omega), Nat.div_eq_of_lt hrlt]
            omega
          have h2 : (10 * m + r) % 10 = r := by
            rw [Nat.mul_add_mod, Nat.mod_eq_of_lt hrlt]
          rw [h1, h2, padStartZeros_append_digit]

theorem formatFee_eq_decimalRender (fee d : Nat) :
    formatFee fee d = decimalRender fee d := by
  by_cases h0 : fee = 0
  · subst h0
    match d with
    | 0 => rfl
    | e + 1 =>
      have hchars : natToStringChars 0 = ['0'] := rfl
      have hpad : padStartZeros ['0'] (e + 1) = List.replicate (e + 1) '0' := by
        simp [padStartZeros, List.replicate_succ' e '0']
      have hpadnil : padStartZeros ([] : List Char) (e + 1) = List.replicate (e + 1) '0' := by
        simp [padStartZeros]
      simp only [formatFee, decimalRender, hchars, Nat.zero_div, Nat.zero_mod,
        natDigits_zero, hpad, hpadnil, List.length_replicate, Nat.sub_self,
        List.take_zero, List.drop_zero]
      simp
  · -- fee positive: split the padded digit string at the decimal point
    have hchars : natToStringChars fee = natDigits fee := by
      simp [natToStringChars, h0]
    have hsplit := padStartZeros_split fee d
    have hfraclen : (padStartZeros (natDigits (fee % 10 ^ d)) d).length = d :=
      padStartZeros_length _ _
        (natDigits_length_le d _ (Nat.mod_lt _ (Nat.pos_pow_of_pos d (by omega))))
    simp only [formatFee, decimalRender, hchars, hsplit]
    set A := natDigits (fee / 10 ^ d) with hA
    set B := padStartZeros (natDigits (fee % 10 ^ d)) d with hB
    have hlen : (A ++ B).length - d = A.length := by
      simp [List.length_append, hfraclen]
    rw [hlen]
    rw [List.take_left, List.drop_left]
    by_cases hq : fee / 10 ^ d = 0
    · have : A = [] := by rw [hA, hq, natDigits_zero]
      rw [this]
      simp [natToStringChars, hq]
    · have hAne : A ≠ [] := by rw [hA]; exact natDigits_ne_nil _ hq
      rw [if_neg hAne]
      simp [natToStringChars, hq]

/-! ## Helper lemmas about the classifier -/

theorem initialFlags_modify_eq (s : String) (tx : TxServiceModel)
    (kt : List (String × TokenInfo)) (code : Option String) :
    (initialFlags s tx kt code).modifySettingsTx =
      (sameAddress tx.«to» s && (tx.value == 0) && dataTruthy tx.data) := rfl

theorem initialFlags_cancellation_eq (s : String) (tx : TxServiceModel)
    (kt : List (String × TokenInfo)) (code : Option String) :
    (initialFlags s tx kt code).cancellationTx =
      (sameAddress tx.«to» s && (tx.value == 0) && !dataTruthy tx.data) := rfl

theorem initialFlags_sendToken_eq (s : String) (tx : TxServiceModel)
    (kt : List (String × TokenInfo)) (code : Option String) :
    (initialFlags s tx kt code).isSendTokenTx =
      (!(initialFlags s tx kt code).isERC721Token && isTokenTransfer tx.data tx.value) := rfl

theorem initialFlags_multiSend_eq (s : String) (tx : TxServiceModel)
    (kt : List (String × TokenInfo)) (code : Option String) :
    (initialFlags s tx kt code).isMultiSendTx =
      isMultisendTransaction tx.data tx.value := rfl

theorem initialFlags_upgrade_eq (s : String) (tx : TxServiceModel)
    (kt : List (String × TokenInfo)) (code : Option String) :
    (initialFlags s tx kt code).isUpgradeTx =
      ((initialFlags s tx kt code).isMultiSendTx && isUpgradeTransaction tx.data) := rfl

theorem initialFlags_custom_eq (s : String) (tx : TxServiceModel)
    (kt : List (String × TokenInfo)) (code : Option String) :
    (initialFlags s tx kt code).customTx =
      (!sameAddress tx.«to» s && dataTruthy tx.data &&
        !(initialFlags s tx kt code).isSendTokenTx &&
        !(initialFlags s tx kt code).isUpgradeTx &&
        !(initialFlags s tx kt code).isERC721Token) := rfl

theorem isTokenTransfer_dataTruthy (d : Option String) (v : Nat)
    (h : isTokenTransfer d v = true) : dataTruthy d = true := by
  cases d with
  | none => exact absurd h (by simp [isTokenTransfer])
  | some s =>
    by_cases hs : s = ""
    · subst hs
      have hsel : (jsTake "" 10 == SENT_TOKEN_FUNCTION_SIGNATURE) = false := by decide
      simp [isTokenTransfer, hsel] at h
    · simp [dataTruthy, hs]

theorem isMultisendTransaction_dataTruthy (d : Option String) (v : Nat)
    (h : isMultisendTransaction d v = true) : dataTruthy d = true := by
  cases d with
  | none => exact absurd h (by simp [isMultisendTransaction])
  | some s =>
    by_cases hs : s = ""
    · subst hs
      have hsel : (jsTake "" 10 == MULTI_SEND_FUNCTION_SIGNATURE) = false := by decide
      simp [isMultisendTransaction, hsel] at h
    · simp [dataTruthy, hs]

theorem resolveSendToken_token_imp (env : TokenEnv) (tx : TxServiceModel) (f : Flags)
    (h : (resolveSendToken env tx f).isSendTokenTx = true) : f.isSendTokenTx = true := by
  by_cases hf : f.isSendTokenTx = true
  · exact hf
  · unfold resolveSendToken at h
    rw [if_neg hf] at h
    exact absurd h (by simp)

theorem resolveSendToken_custom_imp (env : TokenEnv) (tx : TxServiceModel) (f : Flags)
    (h : (resolveSendToken env tx f).customTx = true) :
    f.customTx = true ∨ f.isSendTokenTx = true := by
  by_cases hf : f.isSendTokenTx = true
  · exact Or.inr hf
  · unfold resolveSendToken at h
    rw [if_neg hf] at h
    exact Or.inl h

theorem resolveSendToken_custom_of_sendToken (env : TokenEnv) (tx : TxServiceModel)
    (f : Flags) (hf : f.isSendTokenTx = true)
    (h : (resolveSendToken env tx f).customTx = true) :
    f.customTx = true ∨ (resolveSendToken env tx f).isSendTokenTx = false := by
  unfold resolveSendToken at h ⊢
  rw [if_pos hf] at h ⊢
  rcases hti : env.getTokenInfos tx.«to» with _ | token
  · simp only [hti] at h ⊢
    rcases hsym : env.altSymbol tx.«to» with _ | sym
    · simp only [hsym] at h ⊢
      exact Or.inr trivial
    · rcases hdec : env.altDecimals tx.«to» with _ | dec
      · simp only [hsym, hdec] at h ⊢
        exact Or.inr trivial
      · simp only [hsym, hdec] at h ⊢
        exact Or.inl h
  · simp only [hti] at h
    exact Or.inl h

/-- Inversion for a successful normalization: the refund computation succeeded
with the record's own refund parameters, and the record is the assembled one. -/
theorem buildTransactionFrom_eq_some (s : String) (tx : TxServiceModel)
    (kt : List (String × TokenInfo)) (code : Option String) (env : TokenEnv)
    (t : Transaction) (h : buildTransactionFrom s tx kt code env = some t) :
    ∃ rp, computeRefundParams env tx = some rp ∧
      t = assembleTransaction s tx kt code env rp := by
  unfold buildTransactionFrom at h
  rcases hrp : computeRefundParams env tx with _ | rp
  · rw [hrp] at h
    cases h
  · rw [hrp] at h
    rw [Option.some.injEq] at h
    exact ⟨rp, rfl, h.symm⟩

/-! ## Concrete fixtures -/

/-- A token environment in which every lookup fails. -/
def noTokenEnv : TokenEnv := ⟨fun _ => none, fun _ => none, fun _ => none⟩

/-- A neutral raw service transaction used as the base of the concrete test
fixtures. -/
def baseServiceTx : TxServiceModel :=
  { «to» := "0xdead"
    value := 0
    data := none
    operation := 0
    nonce := none
    blockNumber := none
    safeTxGas := 0
    baseGas := 0
    gasPrice := 0
    gasToken := ZERO_ADDRESS
    refundReceiver := ZERO_ADDRESS
    safeTxHash := ""
    submissionDate := none
    executor := ""
    executionDate := none
    confirmations := []
    isExecuted := true
    isSuccessful := true
    transactionHash := none
    creationTx := false
    origin := none }

/-- How many of the five classification flags of the claim are set. -/
def flagCount (t : Transaction) : Nat :=
  (cond t.modifySettingsTx 1 0) + (cond t.cancellationTx 1 0) +
    (cond t.isTokenTransfer 1 0) + (cond t.multiSendTx 1 0) + (cond t.customTx 1 0)

/-- A plain Ether transfer out of the wallet: positive value, no call data. -/
def etherTransferTx : TxServiceModel := { baseServiceTx with value := 5 }

/-- C1 (counterexample): the claim says exactly one of the five classification
flags is true for every normalized transaction, but a plain Ether transfer
(destination differs from the wallet, positive value, no call data) is
normalized with all five flags false. -/
theorem ether_transfer_has_no_classification_flag :
    (buildTransactionFrom "0xsafe" etherTransferTx [] none noTokenEnv).map flagCount ≠
      some 1 := by decide

/-- C1 (amended): upgradeTx implies multiSendTx; cancellationTx excludes each
of the other four flags; customTx excludes isTokenTransfer; modifySettingsTx
excludes cancellationTx.  (Exactly-one fails: a transaction can have no flag
at all, and multiSendTx can co-occur with customTx or modifySettingsTx.) -/
theorem classification_flag_exclusivity (s : String) (tx : TxServiceModel)
    (kt : List (String × TokenInfo)) (code : Option String) (env : TokenEnv)
    (t : Transaction) (h : buildTransactionFrom s tx kt code env = some t) :
    (t.upgradeTx = true → t.multiSendTx = true) ∧
    (t.cancellationTx = true → t.modifySettingsTx = false ∧ t.isTokenTransfer = false ∧
      t.customTx = false ∧ t.multiSendTx = false) ∧
    (t.customTx = true → t.isTokenTransfer = false) ∧
    (t.modifySettingsTx = true → t.cancellationTx = false) := by
  obtain ⟨rp, -, ht⟩ := buildTransactionFrom_eq_some s tx kt code env t h
  subst ht
  refine ⟨?_, ?_, ?_, ?_⟩
  · show (initialFlags s tx kt code).isUpgradeTx = true →
      (initialFlags s tx kt code).isMultiSendTx = true
    rw [initialFlags_upgrade_eq]
    intro hu
    exact ((Bool.and_eq_true _ _).mp hu).1
  · show (initialFlags s tx kt code).cancellationTx = true → _
    intro hc
    rw [initialFlags_cancellation_eq] at hc
    simp only [Bool.and_eq_true] at hc
    obtain ⟨⟨hsame, hv⟩, hnd⟩ := hc
    cases hdt : dataTruthy tx.data with
    | true =>
      rw [hdt] at hnd
      simp at hnd
    | false =>
      refine ⟨?_, ?_, ?_, ?_⟩
      · show (initialFlags s tx kt code).modifySettingsTx = false
        rw [initialFlags_modify_eq, hdt]
        simp
      · show (resolveSendToken env tx (initialFlags s tx kt code)).isSendTokenTx = false
        cases hrt : (resolveSendToken env tx (initialFlags s tx kt code)).isSendTokenTx
        · rfl
        · have hst := resolveSendToken_token_imp _ _ _ hrt
          rw [initialFlags_sendToken_eq] at hst
          simp only [Bool.and_eq_true] at hst
          have hx := isTokenTransfer_dataTruthy _ _ hst.2
          rw [hdt] at hx
          cases hx
      · show (resolveSendToken env tx (initialFlags s tx kt code)).customTx = false
        cases hrc : (resolveSendToken env tx (initialFlags s tx kt code)).customTx
        · rfl
        · rcases resolveSendToken_custom_imp _ _ _ hrc with hcu | hst
          · rw [initialFlags_custom_eq] at hcu
            simp only [Bool.and_eq_true] at hcu
            obtain ⟨⟨⟨⟨hA, hB⟩, hC⟩, hD⟩, hE⟩ := hcu
            rw [hsame] at hA
            simp at hA
          · rw [initialFlags_sendToken_eq] at hst
            simp only [Bool.and_eq_true] at hst
            have hx := isTokenTransfer_dataTruthy _ _ hst.2
            rw [hdt] at hx
            cases hx
      · show (initialFlags s tx kt code).isMultiSendTx = false
        cases hms : (initialFlags s tx kt code).isMultiSendTx
        · rfl
        · rw [initialFlags_multiSend_eq] at hms
          have hx := isMultisendTransaction_dataTruthy _ _ hms
          rw [hdt] at hx
          cases hx
  · show (resolveSendToken env tx (initialFlags s tx kt code)).customTx = true →
      (resolveSendToken env tx (initialFlags s tx kt code)).isSendTokenTx = false
    intro hrc
    cases hrt : (resolveSendToken env tx (initialFlags s tx kt code)).isSendTokenTx
    · rfl
    · have hst := resolveSendToken_token_imp _ _ _ hrt
      rcases resolveSendToken_custom_of_sendToken _ _ _ hst hrc with hcu | hrf
      · rw [initialFlags_custom_eq] at hcu
        simp only [Bool.and_eq_true] at hcu
        obtain ⟨⟨⟨⟨hA, hB⟩, hC⟩, hD⟩, hE⟩ := hcu
        rw [hst] at hC
        simp at hC
      · rw [hrt] at hrf
        cases hrf
  · show (initialFlags s tx kt code).modifySettingsTx = true →
      (initialFlags s tx kt code).cancellationTx = false
    intro hm
    rw [initialFlags_modify_eq] at hm
    simp only [Bool.and_eq_true] at hm
    rw [initialFlags_cancellation_eq, hm.2]
    simp

/-- The record normalized from the plain Ether transfer fixture. -/
def etherTransferRecord : Transaction :=
  (buildTransactionFrom "0xsafe" etherTransferTx [] none noTokenEnv).getD default

/-- C1 (witness): the amended exclusivity theorem applied to the Ether
transfer fixture. -/
theorem classification_flag_exclusivity_witness :
    (etherTransferRecord.upgradeTx = true → etherTransferRecord.multiSendTx = true) ∧
    (etherTransferRecord.cancellationTx = true → etherTransferRecord.modifySettingsTx = false ∧
      etherTransferRecord.isTokenTransfer = false ∧ etherTransferRecord.customTx = false ∧
      etherTransferRecord.multiSendTx = false) ∧
    (etherTransferRecord.customTx = true → etherTransferRecord.isTokenTransfer = false) ∧
    (etherTransferRecord.modifySettingsTx = true → etherTransferRecord.cancellationTx = false) :=
  classification_flag_exclusivity "0xsafe" etherTransferTx [] none noTokenEnv
    etherTransferRecord (by decide)

/-! ## Claims C2 and C4: token resolution outcomes -/

/-- A provisional token transfer to a registered token whose on-chain
metadata lookups all fail. -/
def failingTokenTransferTx : TxServiceModel :=
  { baseServiceTx with «to» := "0xtok", data := some "0xa9059cbbdeadbeef" }

/-- A token registry knowing the destination of `failingTokenTransferTx`. -/
def knownTok : List (String × TokenInfo) := [("0xtok", ⟨"TKN", 8⟩)]

/-- C2 (counterexample): with both token lookups failing the record is demoted
(isTokenTransfer false, customTx true) but its decoded parameters are the
token-transfer decode of the call data without its selector, not the
custom-call (Safe-method) decode the claim asserts. -/
theorem token_resolution_failure_keeps_transfer_decode :
    (buildTransactionFrom "0xsafe" failingTokenTransferTx knownTok none noTokenEnv).map
        (fun t => (t.isTokenTransfer, t.customTx, t.decodedParams)) =
      some (false, true, some (.transferDecode "deadbeef")) ∧
    some (DecodedParams.transferDecode "deadbeef") ≠
      some (DecodedParams.safeMethodDecode "0xa9059cbbdeadbeef") := by
  constructor
  · decide
  · decide

/-- C2 (amended): when the provisional classification is a token transfer and
both the primary lookup and the secondary lookup fail, the record has
isTokenTransfer false and customTx true, but its decoded parameters are still
the token-transfer (recipient, value) decode of the call data, not the
custom-call decode. -/
theorem token_resolution_total_failure_demotes_to_custom (s : String)
    (tx : TxServiceModel) (kt : List (String × TokenInfo)) (code : Option String)
    (env : TokenEnv) (t : Transaction)
    (hprov : (initialFlags s tx kt code).isSendTokenTx = true)
    (hp : env.getTokenInfos tx.«to» = none)
    (hs : env.altSymbol tx.«to» = none ∨ env.altDecimals tx.«to» = none)
    (h : buildTransactionFrom s tx kt code env = some t) :
    t.isTokenTransfer = false ∧ t.customTx = true ∧
      t.decodedParams = some (.transferDecode (jsSliceFrom (tx.data.getD "") 10)) := by
  obtain ⟨rp, -, ht⟩ := buildTransactionFrom_eq_some s tx kt code env t h
  subst ht
  have hres : resolveSendToken env tx (initialFlags s tx kt code) =
      { isSendTokenTx := false, customTx := true, symbol := "ETH", decimals := 18 } := by
    unfold resolveSendToken
    rw [if_pos hprov, hp]
    rcases h1 : env.altSymbol tx.«to» with _ | sym
    · rfl
    · rcases h2 : env.altDecimals tx.«to» with _ | dec
      · rfl
      · exfalso
        rcases hs with h3 | h3
        · rw [h1] at h3
          cases h3
        · rw [h2] at h3
          cases h3
  refine ⟨?_, ?_, ?_⟩
  · show (resolveSendToken env tx (initialFlags s tx kt code)).isSendTokenTx = false
    rw [hres]
  · show (resolveSendToken env tx (initialFlags s tx kt code)).customTx = true
    rw [hres]
  · show computeDecodedParams tx (initialFlags s tx kt code)
        (resolveSendToken env tx (initialFlags s tx kt code)) =
      some (.transferDecode (jsSliceFrom (tx.data.getD "") 10))
    unfold computeDecodedParams
    rw [if_pos hprov]

/-- The record normalized from `failingTokenTransferTx` when every lookup
fails. -/
def demotedRecord : Transaction :=
  (buildTransactionFrom "0xsafe" failingTokenTransferTx knownTok none noTokenEnv).getD default

/-- C2 (witness): the amended demotion theorem applied to the failing-lookup
fixture. -/
theorem token_resolution_total_failure_demotes_to_custom_witness :
    demotedRecord.isTokenTransfer = false ∧ demotedRecord.customTx = true ∧
      demotedRecord.decodedParams =
        some (.transferDecode (jsSliceFrom (failingTokenTransferTx.data.getD "") 10)) :=
  token_resolution_total_failure_demotes_to_custom "0xsafe" failingTokenTransferTx
    knownTok none noTokenEnv demotedRecord (by decide) rfl (Or.inl rfl) (by decide)

/-- C4: when the provisional classification is a token transfer, the primary
lookup fails, and both calls of the secondary lookup succeed, the record keeps
isTokenTransfer true and carries the secondary-sourced symbol and decimals. -/
theorem token_resolution_fallback_success (s : String) (tx : TxServiceModel)
    (kt : List (String × TokenInfo)) (code : Option String) (env : TokenEnv)
    (t : Transaction) (sym : String) (dec : Nat)
    (hprov : (initialFlags s tx kt code).isSendTokenTx = true)
    (hp : env.getTokenInfos tx.«to» = none)
    (hsym : env.altSymbol tx.«to» = some sym)
    (hdec : env.altDecimals tx.«to» = some dec)
    (h : buildTransactionFrom s tx kt code env = some t) :
    t.isTokenTransfer = true ∧ t.symbol = sym ∧ t.decimals = dec := by
  obtain ⟨rp, -, ht⟩ := buildTransactionFrom_eq_some s tx kt code env t h
  subst ht
  have hres : resolveSendToken env tx (initialFlags s tx kt code) =
      { isSendTokenTx := true, customTx := (initialFlags s tx kt code).customTx,
        symbol := sym, decimals := dec } := by
    unfold resolveSendToken
    rw [if_pos hprov, hp, hsym, hdec]
  refine ⟨?_, ?_, ?_⟩
  · show (resolveSendToken env tx (initialFlags s tx kt code)).isSendTokenTx = true
    rw [hres]
  · show (resolveSendToken env tx (initialFlags s tx kt code)).symbol = sym
    rw [hres]
  · show (resolveSendToken env tx (initialFlags s tx kt code)).decimals = dec
    rw [hres]

/-- A token environment whose primary lookup fails but whose secondary
symbol and decimals calls both succeed. -/
def altOnlyEnv : TokenEnv := ⟨fun _ => none, fun _ => some "ALT", fun _ => some 7⟩

/-- The record normalized from `failingTokenTransferTx` under `altOnlyEnv`. -/
def fallbackRecord : Transaction :=
  (buildTransactionFrom "0xsafe" failingTokenTransferTx knownTok none altOnlyEnv).getD default

/-- C4 (witness): the fallback theorem applied to the secondary-success
fixture. -/
theorem token_resolution_fallback_success_witness :
    fallbackRecord.isTokenTransfer = true ∧ fallbackRecord.symbol = "ALT" ∧
      fallbackRecord.decimals = 7 :=
  token_resolution_fallback_success "0xsafe" failingTokenTransferTx knownTok none
    altOnlyEnv fallbackRecord "ALT" 7 (by decide) rfl rfl rfl (by decide)

/-! ## Claim C5: refund parameters -/

/-- The refund token decimals the specification describes: `18` for the
native sentinel, otherwise the decimals of the resolved gas token (the
fallback `18` is unreachable for a successfully normalized record). -/
def refundTokenDecimals (env : TokenEnv) (gasToken : String) : Nat :=
  if gasToken ≠ ZERO_ADDRESS then
    match env.getTokenInfos gasToken with
    | some info => info.decimals
    | none => 18
  else 18

/-- C5: a normalized record carries refund parameters exactly when
`gasPrice > 0`, and their fee is `gasPrice * (baseGas + safeTxGas)` rendered
as a decimal string in the refund token decimal precision. -/
theorem refund_params_policy (s : String) (tx : TxServiceModel)
    (kt : List (String × TokenInfo)) (code : Option String) (env : TokenEnv)
    (t : Transaction) (h : buildTransactionFrom s tx kt code env = some t) :
    (t.refundParams.isSome ↔ 0 < tx.gasPrice) ∧
    t.refundParams.map RefundParams.fee =
      (if 0 < tx.gasPrice then
        some (decimalRender (tx.gasPrice * (tx.baseGas + tx.safeTxGas))
          (refundTokenDecimals env tx.gasToken))
      else none) := by
  obtain ⟨rp, hrp, ht⟩ := buildTransactionFrom_eq_some s tx kt code env t h
  subst ht
  show (rp.isSome ↔ 0 < tx.gasPrice) ∧ rp.map RefundParams.fee = _
  unfold computeRefundParams at hrp
  by_cases hg : 0 < tx.gasPrice
  · rw [if_pos hg] at hrp
    rcases hsd : refundSymDec env tx with _ | sd
    · rw [hsd] at hrp
      cases hrp
    · obtain ⟨sym, dec⟩ := sd
      rw [hsd] at hrp
      rw [Option.some.injEq] at hrp
      subst hrp
      have hdec : dec = refundTokenDecimals env tx.gasToken := by
        unfold refundSymDec at hsd
        unfold refundTokenDecimals
        by_cases hz : tx.gasToken ≠ ZERO_ADDRESS
        · rw [if_pos hz] at hsd
          rw [if_pos hz]
          rcases hti : env.getTokenInfos tx.gasToken with _ | info
          · rw [hti] at hsd
            exact absurd hsd (by simp)
          · rw [hti] at hsd
            simp only [Option.some.injEq, Prod.mk.injEq] at hsd
            exact hsd.2.symm
        · rw [if_neg hz] at hsd
          rw [if_neg hz]
          simp only [Option.some.injEq, Prod.mk.injEq] at hsd
          exact hsd.2.symm
      refine ⟨by simp [hg], ?_⟩
      rw [if_pos hg, ← hdec]
      simp only [Option.map_some']
      rw [formatFee_eq_decimalRender]
  · rw [if_neg hg] at hrp
    rw [Option.some.injEq] at hrp
    subst hrp
    refine ⟨by simp [hg], ?_⟩
    rw [if_neg hg]
    rfl

/-- A transaction refunding gas in a custom two-decimals token:
`gasPrice = 2`, `baseGas = 3`, `safeTxGas = 4`. -/
def refundTx : TxServiceModel :=
  { baseServiceTx with gasPrice := 2, baseGas := 3, safeTxGas := 4, gasToken := "0xgas" }

/-- A token environment resolving every address to a two-decimals token. -/
def gasTokenEnv : TokenEnv := ⟨fun _ => some ⟨"GAS", 2⟩, fun _ => none, fun _ => none⟩

/-- The record normalized from `refundTx` under `gasTokenEnv`. -/
def refundRecord : Transaction :=
  (buildTransactionFrom "0xsafe" refundTx [] none gasTokenEnv).getD default

/-- C5 (witness): the refund policy applied to the fixture, together with the
concrete instance of the claim: fee integer 14, rendered "0.14". -/
theorem refund_params_policy_witness :
    ((refundRecord.refundParams.isSome ↔ 0 < refundTx.gasPrice) ∧
      refundRecord.refundParams.map RefundParams.fee =
        (if 0 < refundTx.gasPrice then
          some (decimalRender (refundTx.gasPrice * (refundTx.baseGas + refundTx.safeTxGas))
            (refundTokenDecimals gasTokenEnv refundTx.gasToken))
        else none)) ∧
    decimalRender 14 2 = "0.14" ∧
    refundRecord.refundParams.map RefundParams.fee = some "0.14" :=
  ⟨refund_params_policy "0xsafe" refundTx [] none gasTokenEnv refundRecord (by decide),
    by decide, by decide⟩

/-! ## The normalized genesis record -/

/-- The canonical record the synthetic genesis transaction normalizes to,
independently of the wallet address, token registry, bytecode and token
environment. -/
def mockTransactionRecord : Transaction :=
  { symbol := "ETH"
    nonce := none
    blockNumber := none
    value := natToString 0
    confirmations := []
    decimals := 18
    recipient := ""
    data := EMPTY_DATA
    operation := 0
    safeTxGas := 0
    baseGas := 0
    gasPrice := 0
    gasToken := ZERO_ADDRESS
    refundReceiver := ZERO_ADDRESS
    refundParams := none
    isExecuted := true
    isSuccessful := true
    submissionDate := none
    executor := ""
    executionDate := none
    executionTxHash := none
    safeTxHash := ""
    isTokenTransfer := false
    multiSendTx := false
    upgradeTx := false
    decodedParams := none
    modifySettingsTx := false
    customTx := false
    cancellationTx := false
    creationTx := true
    origin := none }

theorem buildTransactionFrom_mock (safe : String) (kt : List (String × TokenInfo))
    (code : Option String) (env : TokenEnv) :
    buildTransactionFrom safe (mockCreationTx safe) kt code env =
      some mockTransactionRecord := by
  have hst : (initialFlags safe (mockCreationTx safe) kt code).isSendTokenTx = false := by
    rw [initialFlags_sendToken_eq]
    exact Bool.and_false _
  have hcu : (initialFlags safe (mockCreationTx safe) kt code).customTx = false := by
    rw [initialFlags_custom_eq]
    simp [mockCreationTx, dataTruthy]
  have hres : resolveSendToken env (mockCreationTx safe)
      (initialFlags safe (mockCreationTx safe) kt code) =
      { isSendTokenTx := false, customTx := false, symbol := "ETH", decimals := 18 } := by
    unfold resolveSendToken
    rw [if_neg (by simp [hst]), hcu]
  show some (assembleTransaction safe (mockCreationTx safe) kt code env none) =
    some mockTransactionRecord
  rw [Option.some.injEq]
  simp only [assembleTransaction, hres]
  simp [mockTransactionRecord, mockCreationTx, initialFlags, sameAddress, dataTruthy,
    isTokenTransfer, isMultisendTransaction, isUpgradeTransaction, computeDecodedParams,
    EMPTY_DATA, hst]

theorem finishLoad_mock (safe : String) (kt : List (String × TokenInfo))
    (codeOf : String → Option String) (env : TokenEnv) (newEtag : Option String)
    (logged : Bool) :
    finishLoad safe (addMockSafeCreationTx safe) kt codeOf env newEtag logged =
      { outcome := .result { outgoing := [(safe, some [mockTransactionRecord])],
                             cancel := [(safe, none)] },
        newEtag := newEtag, loggedError := logged, batchLookupPerformed := true,
        normalizationsAttempted := 1 } := by
  have hm := buildTransactionFrom_mock safe kt (codeOf (mockCreationTx safe).«to») env
  unfold finishLoad
  simp only [addMockSafeCreationTx, List.map_cons, List.map_nil]
  rw [hm]
  simp only [sequenceOptions, Option.map_some']
  simp [groupGet, mockTransactionRecord]

/-! ## Claims C3, C7, C8, C9: the fetch loop -/

/-- C3 (counterexample): with the stored ETag equal to the response ETag but a
zero count, the function does not return `undefined` and still performs one
normalization — the claim is false without a positive-count qualification. -/
theorem matching_etag_zero_count_still_normalizes :
    (loadOutgoingTransactions "0xsafe" (some "etag1") (.success "etag1" 0 []) []
        (fun _ => none) noTokenEnv).outcome.isUndef = false ∧
    (loadOutgoingTransactions "0xsafe" (some "etag1") (.success "etag1" 0 []) []
        (fun _ => none) noTokenEnv).normalizationsAttempted = 1 ∧
    (loadOutgoingTransactions "0xsafe" (some "etag1") (.success "etag1" 0 []) []
        (fun _ => none) noTokenEnv).batchLookupPerformed = true := by
  refine ⟨?_, ?_, ?_⟩ <;> decide

/-- C3 (amended): when the response ETag equals the stored one and the
response count is positive — or on a 304-equivalent failure — the function
returns `undefined`, performs no batch code lookup and no per-transaction
normalization, and leaves the stored ETag unchanged. -/
theorem etag_short_circuit (safe etag : String) (count : Nat)
    (results : List TxServiceModel) (prevEtag : Option String)
    (kt : List (String × TokenInfo)) (codeOf : String → Option String)
    (env : TokenEnv) (h : 0 < count ∧ prevEtag = some etag) :
    loadOutgoingTransactions safe prevEtag (.success etag count results) kt codeOf env =
      { outcome := .undef, newEtag := prevEtag, loggedError := false,
        batchLookupPerformed := false, normalizationsAttempted := 0 } ∧
    loadOutgoingTransactions safe prevEtag .notModified kt codeOf env =
      { outcome := .undef, newEtag := prevEtag, loggedError := false,
        batchLookupPerformed := false, normalizationsAttempted := 0 } := by
  constructor
  · simp only [loadOutgoingTransactions]
    rw [if_pos h.1, if_pos h.2]
  · rfl

/-- C3 (witness): the short-circuit theorem applied to a matching stored
ETag with a positive count, and to a 304-equivalent failure. -/
theorem etag_short_circuit_witness :
    loadOutgoingTransactions "0xsafe" (some "e") (.success "e" 1 []) []
        (fun _ => none) noTokenEnv =
      { outcome := .undef, newEtag := some "e", loggedError := false,
        batchLookupPerformed := false, normalizationsAttempted := 0 } ∧
    loadOutgoingTransactions "0xsafe" (some "e") .notModified []
        (fun _ => none) noTokenEnv =
      { outcome := .undef, newEtag := some "e", loggedError := false,
        batchLookupPerformed := false, normalizationsAttempted := 0 } :=
  etag_short_circuit "0xsafe" "e" 1 [] (some "e") [] (fun _ => none) noTokenEnv
    ⟨by decide, rfl⟩

/-- C7: a successful response reporting zero remote transactions still yields
a result whose outgoing group for the wallet address is exactly the one
synthetic creation record (`creationTx` set). -/
theorem genesis_seed_always_present (safe etag : String)
    (results : List TxServiceModel) (prevEtag : Option String)
    (kt : List (String × TokenInfo)) (codeOf : String → Option String)
    (env : TokenEnv) :
    (loadOutgoingTransactions safe prevEtag (.success etag 0 results) kt codeOf env).outcome =
      .result { outgoing := [(safe, some [mockTransactionRecord])],
                cancel := [(safe, none)] } ∧
    mockTransactionRecord.creationTx = true := by
  constructor
  · show (finishLoad safe (addMockSafeCreationTx safe) kt codeOf env prevEtag false).outcome =
      _
    rw [finishLoad_mock]
  · rfl

/-- C8: a network failure other than a 304-equivalent is logged and the
function still resolves (it does not reject), returning the result built from
only the synthetic genesis record. -/
theorem network_error_degrades_to_genesis (safe : String) (prevEtag : Option String)
    (kt : List (String × TokenInfo)) (codeOf : String → Option String)
    (env : TokenEnv) :
    loadOutgoingTransactions safe prevEtag .networkError kt codeOf env =
      { outcome := .result { outgoing := [(safe, some [mockTransactionRecord])],
                             cancel := [(safe, none)] },
        newEtag := prevEtag, loggedError := true, batchLookupPerformed := true,
        normalizationsAttempted := 1 } := by
  show finishLoad safe (addMockSafeCreationTx safe) kt codeOf env prevEtag true = _
  rw [finishLoad_mock]

/-- C9: on a successful response with zero count the stored ETag is left
unchanged whatever the response ETag is, the not-modified short-circuit is
not taken, and the function proceeds to normalize and return the genesis-only
result. -/
theorem zero_count_ignores_etag (safe etag : String)
    (results : List TxServiceModel) (prevEtag : Option String)
    (kt : List (String × TokenInfo)) (codeOf : String → Option String)
    (env : TokenEnv) :
    loadOutgoingTransactions safe prevEtag (.success etag 0 results) kt codeOf env =
      { outcome := .result { outgoing := [(safe, some [mockTransactionRecord])],
                             cancel := [(safe, none)] },
        newEtag := prevEtag, loggedError := false, batchLookupPerformed := true,
        normalizationsAttempted := 1 } ∧
    (loadOutgoingTransactions safe prevEtag (.success etag 0 results) kt codeOf env).outcome.isUndef =
      false := by
  have h : loadOutgoingTransactions safe prevEtag (.success etag 0 results) kt codeOf env =
      finishLoad safe (addMockSafeCreationTx safe) kt codeOf env prevEtag false := rfl
  rw [h, finishLoad_mock]
  exact ⟨rfl, rfl⟩

/-! ## Claim C6: cancellation classification and partition stability -/

/-- C6: a transaction sent to the wallet itself with zero value and no call
data is classified cancellationTx, and the grouping is a stable partition: for
remote input `[tx1 (outgoing), tx2 (cancellation), tx3 (outgoing)]` the
outgoing group is `[genesis, n1, n3]` and the cancel group `[n2]`, in input
order. -/
theorem cancellation_and_stable_partition :
    (∀ (safe : String) (tx : TxServiceModel) (kt : List (String × TokenInfo))
        (code : Option String) (env : TokenEnv) (t : Transaction),
      sameAddress tx.«to» safe = true → tx.value = 0 → tx.data = none →
      buildTransactionFrom safe tx kt code env = some t → t.cancellationTx = true) ∧
    (∀ (safe etag : String) (count : Nat) (tx1 tx2 tx3 : TxServiceModel)
        (n1 n2 n3 : Transaction) (kt : List (String × TokenInfo))
        (codeOf : String → Option String) (env : TokenEnv),
      0 < count →
      buildTransactionFrom safe tx1 kt (codeOf tx1.«to») env = some n1 →
      buildTransactionFrom safe tx2 kt (codeOf tx2.«to») env = some n2 →
      buildTransactionFrom safe tx3 kt (codeOf tx3.«to») env = some n3 →
      n1.cancellationTx = false → n2.cancellationTx = true → n3.cancellationTx = false →
      loadOutgoingTransactions safe none (.success etag count [tx1, tx2, tx3]) kt codeOf env =
        { outcome := .result { outgoing := [(safe, some [mockTransactionRecord, n1, n3])],
                               cancel := [(safe, some [n2])] },
          newEtag := some etag, loggedError := false, batchLookupPerformed := true,
          normalizationsAttempted := 4 }) := by
  constructor
  · intro safe tx kt code env t h1 h2 h3 h
    obtain ⟨rp, -, ht⟩ := buildTransactionFrom_eq_some safe tx kt code env t h
    subst ht
    show (initialFlags safe tx kt code).cancellationTx = true
    rw [initialFlags_cancellation_eq, h1, h2, h3]
    rfl
  · intro safe etag count tx1 tx2 tx3 n1 n2 n3 kt codeOf env hcount hb1 hb2 hb3 hc1 hc2 hc3
    have hm := buildTransactionFrom_mock safe kt (codeOf (mockCreationTx safe).«to») env
    simp only [loadOutgoingTransactions]
    rw [if_pos hcount, if_neg (by simp)]
    unfold finishLoad
    simp only [addMockSafeCreationTx, List.cons_append, List.nil_append, List.map_cons,
      List.map_nil]
    rw [hm, hb1, hb2, hb3]
    simp only [sequenceOptions, Option.map_some']
    simp [groupGet, List.filter, hc1, hc2, hc3, mockTransactionRecord]

/-- The raw cancellation fixture: destination is the wallet itself, zero
value, no call data. -/
def cancelTx : TxServiceModel := { baseServiceTx with «to» := "0xsafe" }

/-- The record normalized from the cancellation fixture. -/
def cancelRecord : Transaction :=
  (buildTransactionFrom "0xsafe" cancelTx [] none noTokenEnv).getD default

/-- C6 (witness): the theorem applied to the cancellation fixture and to the
three-transaction scenario of the claim. -/
theorem cancellation_and_stable_partition_witness :
    cancelRecord.cancellationTx = true ∧
    loadOutgoingTransactions "0xsafe" none
        (.success "e" 3 [etherTransferTx, cancelTx, etherTransferTx]) []
        (fun _ => none) noTokenEnv =
      { outcome := .result
          { outgoing := [("0xsafe", some [mockTransactionRecord, etherTransferRecord,
              etherTransferRecord])],
            cancel := [("0xsafe", some [cancelRecord])] },
        newEtag := some "e", loggedError := false, batchLookupPerformed := true,
        normalizationsAttempted := 4 } :=
  ⟨cancellation_and_stable_partition.1 "0xsafe" cancelTx [] none noTokenEnv cancelRecord
      (by decide) rfl rfl (by decide),
    cancellation_and_stable_partition.2 "0xsafe" "e" 3 etherTransferTx cancelTx
      etherTransferTx etherTransferRecord cancelRecord etherTransferRecord []
      (fun _ => none) noTokenEnv (by decide) (by decide) (by decide) (by decide)
      (by decide) (by decide) (by decide)⟩

/-! ## Claim C10: shape of the grouped output -/

/-- C10: whenever the function resolves with a grouped result, each of the
two maps has exactly the queried wallet address as its only key; a group is
never the empty list (`some []`); and when every normalized record is
non-cancelling the cancel group is absent (`none`). -/
theorem single_group_partition_shape :
    (∀ (safe : String) (prevEtag : Option String) (outcome : FetchOutcome)
        (kt : List (String × TokenInfo)) (codeOf : String → Option String)
        (env : TokenEnv) (st : SafeTransactionsType),
      (loadOutgoingTransactions safe prevEtag outcome kt codeOf env).outcome = .result st →
      st.outgoing.map Prod.fst = [safe] ∧ st.cancel.map Prod.fst = [safe]) ∧
    (∀ (recs : List Transaction) (b : Bool), groupGet recs b ≠ some []) ∧
    (∀ recs : List Transaction, (∀ r ∈ recs, r.cancellationTx = false) →
      groupGet recs true = none) := by
  refine ⟨?_, ?_, ?_⟩
  · intro safe prevEtag outcome kt codeOf env st h
    have key : ∀ (txs : List TxServiceModel) (newEtag : Option String) (logged : Bool),
        (finishLoad safe txs kt codeOf env newEtag logged).outcome = .result st →
        st.outgoing.map Prod.fst = [safe] ∧ st.cancel.map Prod.fst = [safe] := by
      intro txs newEtag logged hf
      unfold finishLoad at hf
      rcases hseq : sequenceOptions
          (txs.map (fun t => buildTransactionFrom safe t kt (codeOf t.«to») env)) with _ | recs
      · rw [hseq] at hf
        simp at hf
      · rw [hseq] at hf
        have h2 : LoadOutcome.result
            { outgoing := [(safe, groupGet recs false)],
              cancel := [(safe, groupGet recs true)] } = LoadOutcome.result st := hf
        have hst := (LoadOutcome.result.inj h2).symm
        subst hst
        constructor <;> rfl
    rcases outcome with ⟨etag, count, results⟩ | _ | _
    · simp only [loadOutgoingTransactions] at h
      by_cases h1 : 0 < count
      · rw [if_pos h1] at h
        by_cases h2 : prevEtag = some etag
        · rw [if_pos h2] at h
          simp at h
        · rw [if_neg h2] at h
          exact key _ _ _ h
      · rw [if_neg h1] at h
        exact key _ _ _ h
    · simp only [loadOutgoingTransactions] at h
      simp at h
    · simp only [loadOutgoingTransactions] at h
      exact key _ _ _ h
  · intro recs b h
    unfold groupGet at h
    by_cases hl : recs.filter (fun t => t.cancellationTx == b) = []
    · rw [if_pos hl] at h
      cases h
    · rw [if_neg hl] at h
      rw [Option.some.injEq] at h
      exact hl h
  · intro recs hall
    unfold groupGet
    have hempty : recs.filter (fun t => t.cancellationTx == true) = [] := by
      rw [List.filter_eq_nil_iff]
      intro a ha
      rw [hall a ha]
      simp
    rw [if_pos hempty]

/-- The grouped result of a network-error invocation for the witness. -/
def genesisOnlyResult : SafeTransactionsType :=
  { outgoing := [("0xsafe", some [mockTransactionRecord])], cancel := [("0xsafe", none)] }

/-- C10 (witness): the shape theorem applied to a concrete invocation and to
concrete record lists. -/
theorem single_group_partition_shape_witness :
    (genesisOnlyResult.outgoing.map Prod.fst = ["0xsafe"] ∧
      genesisOnlyResult.cancel.map Prod.fst = ["0xsafe"]) ∧
    groupGet [] false ≠ some [] ∧
    groupGet [mockTransactionRecord] true = none :=
  ⟨single_group_partition_shape.1 "0xsafe" none .networkError [] (fun _ => none)
      noTokenEnv genesisOnlyResult (by decide),
    single_group_partition_shape.2.1 [] false,
    single_group_partition_shape.2.2 [mockTransactionRecord] (by decide)⟩

end SafeReact
